import Mathlib

/-!
Shallow embedding of the Avalanche/Snowball consensus simulation
(`src/main.rs` of anthdm/avalanche) and verification of its specification.

Machine integers are modelled as `Nat` (`u64`, `u32`, `usize`) and `Int`
(`i32`); the counters, epochs and list lengths involved stay far below
`2 ^ 32`, and a Rust debug build aborts on overflow rather than wrapping,
so no wraparound arithmetic is reproduced.  A Rust panic (`unwrap` on a
missing mempool key) is modelled by an `Option` result being `none`.
-/

/-- Binary belief of a node about a transaction (`enum Status` in the source). -/
inductive Status where
  | Valid : Status
  | Invalid : Status
deriving DecidableEq, Repr

/-- Source `Status::flip`. -/
def Status.flip : Status → Status
  | Status.Valid => Status.Invalid
  | Status.Invalid => Status.Valid

/-- Source `struct Transaction { nonce: u64, data: i32 }`.  `data` is the
payload; numbers below 7 are considered valid transactions. -/
structure Transaction where
  nonce : Nat
  data : Int
deriving DecidableEq, Repr

/-- Little-endian 8-byte encoding of a `u64`, as written by
`write_u64::<LittleEndian>`. -/
def u64LEBytes (n : Nat) : List Nat :=
  [n % 256, n / 2 ^ 8 % 256, n / 2 ^ 16 % 256, n / 2 ^ 24 % 256,
   n / 2 ^ 32 % 256, n / 2 ^ 40 % 256, n / 2 ^ 48 % 256, n / 2 ^ 56 % 256]

/-- Source `Transaction::serialize`: the canonical byte encoding consists of
the nonce alone, little endian; the payload is not written. -/
def Transaction.serialize (t : Transaction) : List Nat :=
  u64LEBytes t.nonce

/-! SHA-256 over byte lists (each byte a `Nat` below 256), the digest used by
`ring::digest::SHA256` in `Transaction::hash`. -/

/-- Right rotation of a 32-bit word. -/
def rotr32 (n x : Nat) : Nat :=
  ((x >>> n) ||| (x <<< (32 - n))) % 2 ^ 32

/-- SHA-256 small sigma 0. -/
def sSig0 (x : Nat) : Nat := rotr32 7 x ^^^ rotr32 18 x ^^^ (x >>> 3)

/-- SHA-256 small sigma 1. -/
def sSig1 (x : Nat) : Nat := rotr32 17 x ^^^ rotr32 19 x ^^^ (x >>> 10)

/-- SHA-256 big sigma 0. -/
def bSig0 (x : Nat) : Nat := rotr32 2 x ^^^ rotr32 13 x ^^^ rotr32 22 x

/-- SHA-256 big sigma 1. -/
def bSig1 (x : Nat) : Nat := rotr32 6 x ^^^ rotr32 11 x ^^^ rotr32 25 x

/-- SHA-256 choice function. -/
def chFn (x y z : Nat) : Nat := (x &&& y) ^^^ ((x ^^^ 4294967295) &&& z)

/-- SHA-256 majority function. -/
def majFn (x y z : Nat) : Nat := (x &&& y) ^^^ (x &&& z) ^^^ (y &&& z)

/-- SHA-256 round constants. -/
def sha256K : List Nat :=
  [1116352408, 1899447441, 3049323471, 3921009573, 961987163, 1508970993,
   2453635748, 2870763221, 3624381080, 310598401, 607225278, 1426881987,
   1925078388, 2162078206, 2614888103, 3248222580, 3835390401, 4022224774,
   264347078, 604807628, 770255983, 1249150122, 1555081692, 1996064986,
   2554220882, 2821834349, 2952996808, 3210313671, 3336571891, 3584528711,
   113926993, 338241895, 666307205, 773529912, 1294757372, 1396182291,
   1695183700, 1986661051, 2177026350, 2456956037, 2730485921, 2820302411,
   3259730800, 3345764771, 3516065817, 3600352804, 4094571909, 275423344,
   430227734, 506948616, 659060556, 883997877, 958139571, 1322822218,
   1537002063, 1747873779, 1955562222, 2024104815, 2227730452, 2361852424,
   2428436474, 2756734187, 3204031479, 3329325298]

/-- SHA-256 initial hash value. -/
def sha256H0 : List Nat :=
  [1779033703, 3144134277, 1013904242, 2773480762,
   1359893119, 2600822924, 528734635, 1541459225]

/-- Big-endian 8-byte encoding (the length field of SHA-256 padding). -/
def beBytes8 (n : Nat) : List Nat :=
  [n / 2 ^ 56 % 256, n / 2 ^ 48 % 256, n / 2 ^ 40 % 256, n / 2 ^ 32 % 256,
   n / 2 ^ 24 % 256, n / 2 ^ 16 % 256, n / 2 ^ 8 % 256, n % 256]

/-- Big-endian 4-byte encoding of a 32-bit word. -/
def beBytes4 (n : Nat) : List Nat :=
  [n / 2 ^ 24 % 256, n / 2 ^ 16 % 256, n / 2 ^ 8 % 256, n % 256]

/-- SHA-256 padding: append `0x80`, zero bytes up to 56 mod 64, and the
message bit length as 8 big-endian bytes. -/
def sha256Pad (msg : List Nat) : List Nat :=
  msg ++ [128] ++ List.replicate ((119 - msg.length % 64) % 64) 0
      ++ beBytes8 (8 * msg.length)

/-- Group bytes into big-endian 32-bit words. -/
def bytesToWords : List Nat → List Nat
  | a :: b :: c :: d :: rest =>
      (((a * 256 + b) * 256 + c) * 256 + d) :: bytesToWords rest
  | _ => []

/-- Extend a 16-word block to the 64-word message schedule (`k` more words). -/
def extendSchedule : Nat → List Nat → List Nat
  | 0, w => w
  | Nat.succ k, w =>
      let i := w.length
      extendSchedule k (w ++
        [(w.getD (i - 16) 0 + sSig0 (w.getD (i - 15) 0) +
          w.getD (i - 7) 0 + sSig1 (w.getD (i - 2) 0)) % 2 ^ 32])

/-- One SHA-256 compression round; the state is the list `[a,b,c,d,e,f,g,h]`. -/
def sha256Round (st : List Nat) (kw : Nat × Nat) : List Nat :=
  match st with
  | [a, b, c, d, e, f, g, h] =>
      let t1 := (h + bSig1 e + chFn e f g + kw.1 + kw.2) % 2 ^ 32
      let t2 := (bSig0 a + majFn a b c) % 2 ^ 32
      [(t1 + t2) % 2 ^ 32, a, b, c, (d + t1) % 2 ^ 32, e, f, g]
  | other => other

/-- Process one 64-byte block. -/
def sha256Block (h : List Nat) (blockBytes : List Nat) : List Nat :=
  let w := extendSchedule 48 (bytesToWords blockBytes)
  let st := (sha256K.zip w).foldl sha256Round h
  (h.zip st).map (fun p => (p.1 + p.2) % 2 ^ 32)

/-- Split a byte list into 64-byte blocks (structural recursion on a fuel
argument so the definition reduces in the kernel; the fuel is the length). -/
def chunkBlocksAux : Nat → List Nat → List (List Nat)
  | 0, _ => []
  | _, [] => []
  | Nat.succ fuel, bs => bs.take 64 :: chunkBlocksAux fuel (bs.drop 64)

/-- Split a byte list into 64-byte blocks. -/
def chunkBlocks (bs : List Nat) : List (List Nat) :=
  chunkBlocksAux bs.length bs

/-- SHA-256 of a byte list, as a list of 32 digest bytes. -/
def sha256 (msg : List Nat) : List Nat :=
  let blocks := chunkBlocks (sha256Pad msg)
  let hfin := blocks.foldl sha256Block sha256H0
  (hfin.map beBytes4).flatten

/-- Source `Transaction::hash`: the SHA-256 digest of the serialized
transaction, used as the identifier everywhere (mempool key, wire key). -/
def Transaction.hash (t : Transaction) : List Nat :=
  sha256 t.serialize

example : sha256 [] =
    [227, 176, 196, 66, 152, 252, 28, 20, 154, 251, 244, 200,
     153, 111, 185, 36, 39, 174, 65, 228, 100, 155, 147, 76,
     164, 149, 153, 27, 120, 82, 184, 85] := by decide

example : sha256 [97, 98, 99] =
    [186, 120, 22, 191, 143, 1, 207, 234, 65, 65, 64, 222,
     93, 174, 34, 35, 176, 3, 97, 163, 150, 23, 122, 156,
     180, 16, 255, 97, 242, 0, 21, 173] := by decide

/-! Protocol configuration constants (`src/main.rs` lines 120-123).
`TRESHOLD` and `CONVICTION_TRESHOLD` are the `f32` value `0.75` in the
source; both thresholds are computed there as `(0.75 * SAMPLES as f32)`
truncated to an integer.  With `SAMPLES = 4` the product is exactly `3.0`,
so the truncation is exact and the thresholds are the natural number `3`
(equal, here, to the ceiling of `alpha * k`). -/

/-- Source `SAMPLES`: the sample size `k` per query round. -/
def SAMPLES : Nat := 4

/-- Source `MAX_EPOCHS`: the number of epochs `m` required for finality. -/
def MAX_EPOCHS : Nat := 4

/-- Value of `(TRESHOLD * SAMPLES as f32) as usize` with `TRESHOLD = 0.75`:
the numerator 3 times `SAMPLES`, divided by 4, an exact computation. -/
def quorumThreshold : Nat := 3 * SAMPLES / 4

/-- Value of `(CONVICTION_TRESHOLD * SAMPLES as f32) as u32` with
`CONVICTION_TRESHOLD = 0.75`, likewise exact. -/
def convictionThreshold : Nat := 3 * SAMPLES / 4

/-- Source `struct TxState`: the per-transaction, per-node consensus state.
`responses` is the per-round response tally, `cnt_valid` and `cnt_invalid`
the per-status confidence counters, `cnt` the conviction (streak) counter
and `last_status` the last decided status (the streak belief). -/
structure TxState where
  epoch : Nat
  tx : Transaction
  status : Status
  responses : List Status
  is_final : Bool
  cnt_valid : Nat
  cnt_invalid : Nat
  cnt : Nat
  last_status : Status
deriving DecidableEq, Repr

/-- Source `TxState::new`: fresh state with the given status, epoch 0, no
responses, all counters zero, not final, and `last_status` set to
`Status::Invalid`. -/
def TxState.new (tx : Transaction) (status : Status) : TxState :=
  { responses := []
    is_final := false
    last_status := Status.Invalid
    epoch := 0
    cnt_valid := 0
    cnt_invalid := 0
    cnt := 0
    tx := tx
    status := status }

/-- Source `TxState::incr_status`: increment the confidence counter of the
given status and return the updated state together with the new counter
value (the Rust method mutates in place and returns the `u32`). -/
def TxState.incr_status (s : TxState) (st : Status) : TxState × Nat :=
  match st with
  | Status.Valid => ({ s with cnt_valid := s.cnt_valid + 1 }, s.cnt_valid + 1)
  | Status.Invalid => ({ s with cnt_invalid := s.cnt_invalid + 1 }, s.cnt_invalid + 1)

/-- Source `TxState::status_count`: read the confidence counter of the given
status. -/
def TxState.status_count (s : TxState) (st : Status) : Nat :=
  match st with
  | Status.Valid => s.cnt_valid
  | Status.Invalid => s.cnt_invalid

/-- Source `TxState::advance`: move to the next epoch and clear the round
responses. -/
def TxState.advance (s : TxState) : TxState :=
  { s with epoch := s.epoch + 1, responses := [] }

/-- Body of `Node::handle_query_response` for a non-final state
(`src/main.rs` lines 302-338), as a function of the state and the reported
status: push the status, tally it, and on quorum update the confidence,
belief, streak and epoch exactly as the source does.  Returns the updated
state and the decision `(hash, status)` produced when the state just became
final. -/
def TxState.process_response (s : TxState) (S : Status) : TxState × Option (List Nat × Status) :=
  let s1 := { s with responses := s.responses ++ [S] }
  let n := (s1.responses.filter (fun st => st == S)).length
  if n ≥ quorumThreshold then
    let p := s1.incr_status S
    let s2 := p.1
    let cnt := p.2
    let our_status_cnt := s2.status_count s2.status
    let s3 := if cnt > our_status_cnt then { s2 with status := S, last_status := S } else s2
    if S ≠ s3.last_status then
      ({ s3 with last_status := S, cnt := 0 }, none)
    else
      let s4 := { s3 with cnt := s3.cnt + 1 }
      if s4.cnt > convictionThreshold then
        let s5 := s4.advance
        if s5.epoch = MAX_EPOCHS then
          ({ s5 with is_final := true }, some (s5.tx.hash, s5.status))
        else (s5, none)
      else (s4, none)
  else (s1, none)

/-- The full state transition of `Node::handle_query_response` on the looked
up state: a final state is left untouched and produces no decision, any
other state is processed by `TxState.process_response`. -/
def TxState.handle_response (s : TxState) (S : Status) : TxState × Option (List Nat × Status) :=
  if s.is_final then (s, none) else s.process_response S

/-- Quorum test of `src/main.rs` lines 304-310: after `S` is appended, the
number of entries of `round_responses` equal to the just received `S`
reaches the threshold. -/
def quorum_for (s : TxState) (S : Status) : Prop :=
  ((s.responses ++ [S]).filter (fun st => st == S)).length ≥ quorumThreshold

instance (s : TxState) (S : Status) : Decidable (quorum_for s S) := by
  unfold quorum_for; infer_instance

/-- Flip condition of `src/main.rs` lines 312-318: the confidence counter of
the received status, just incremented, strictly exceeds the confidence
counter of the current belief (read after the increment).  The increment
does not touch `responses`, so the condition may be read off the state
before the push. -/
def flip_occurs (s : TxState) (S : Status) : Prop :=
  (s.incr_status S).2 > (s.incr_status S).1.status_count (s.incr_status S).1.status

instance (s : TxState) (S : Status) : Decidable (flip_occurs s S) := by
  unfold flip_occurs; infer_instance

/-- Source `struct QueryMessage { tx, status }`: a Query carries the full
transaction and the claimed status. -/
structure QueryMessage where
  tx : Transaction
  status : Status
deriving DecidableEq, Repr

/-- Source `struct QueryResponse { hash, status }`: a QueryResponse carries
the transaction identifier and the reported status. -/
structure QueryResponseMsg where
  hash : List Nat
  status : Status
deriving DecidableEq, Repr

/-- Outbound message of a node, tagged as the source sends it: a Query
`(tx, status)` via `send_query`, or a QueryResponse `(to, hash, status)`
via `send_response`. -/
inductive OutMsg where
  | query : Transaction → Status → OutMsg
  | response : Nat → List Nat → Status → OutMsg
deriving DecidableEq, Repr

/-- The mempool, `HashMap<Hash, TxState>` in the source, modelled as an
association list keyed by the digest bytes. -/
def Mempool : Type := List (List Nat × TxState)

instance : DecidableEq Mempool := by
  unfold Mempool; infer_instance

/-- Lookup in the mempool (`HashMap::get`). -/
def mlookup : Mempool → List Nat → Option TxState
  | [], _ => none
  | (k0, v0) :: rest, k => if k0 = k then some v0 else mlookup rest k

/-- Insert into the mempool (`HashMap::insert`), replacing any entry with
the same key. -/
def minsert : Mempool → List Nat → TxState → Mempool
  | [], k, v => [(k, v)]
  | (k0, v0) :: rest, k, v =>
      if k0 = k then (k, v) :: rest else (k0, v0) :: minsert rest k v

/-- Source `struct Node`: the node identifier and its exclusively owned
mempool.  The outbound channel is modelled by returning the list of sent
messages from each handler. -/
structure Node where
  id : Nat
  mempool : Mempool
deriving DecidableEq

/-- Source `Node::verify_transaction`: payload strictly below 7 is `Valid`,
anything else `Invalid`. -/
def Node.verify_transaction (_nd : Node) (tx : Transaction) : Status :=
  match decide (tx.data < 7) with
  | true => Status.Valid
  | false => Status.Invalid

/-- Source `Node::handle_query`: an unseen transaction is adopted with the
claimed status and propagated with an own Query; a known transaction is
left untouched; in both cases the node responds to the origin with its
current status for the transaction. -/
def Node.handle_query (nd : Node) (origin : Nat) (msg : QueryMessage) : Node × List OutMsg :=
  match mlookup nd.mempool msg.tx.hash with
  | none =>
      let state := TxState.new msg.tx msg.status
      ({ nd with mempool := minsert nd.mempool msg.tx.hash state },
       [OutMsg.query msg.tx msg.status,
        OutMsg.response origin state.tx.hash state.status])
  | some state =>
      (nd, [OutMsg.response origin state.tx.hash state.status])

/-- Source `Node::handle_query_response`: `unwrap` of a missing mempool
entry panics, modelled as `none`.  A final state is ignored.  Otherwise the
state is updated in place by the non-final body and, unless the state just
became final (in which case the decision is returned instead), a new Query
with the current belief is sent. -/
def Node.handle_query_response (nd : Node) (msg : QueryResponseMsg) :
    Option (Node × List OutMsg × Option (List Nat × Status)) :=
  match mlookup nd.mempool msg.hash with
  | none => none
  | some state =>
      if state.is_final then some (nd, [], none)
      else
        let r := state.process_response msg.status
        let nd1 : Node := { nd with mempool := minsert nd.mempool msg.hash r.1 }
        match r.2 with
        | some d => some (nd1, [], some d)
        | none => some (nd1, [OutMsg.query r.1.tx r.1.status], none)

/-- Source `Node::handle_transaction`: verify the transaction locally,
insert a fresh state with the verification result as the initial belief,
and send a Query carrying that belief. -/
def Node.handle_transaction (nd : Node) (tx : Transaction) : Node × List OutMsg :=
  let status := nd.verify_transaction tx
  ({ nd with mempool := minsert nd.mempool tx.hash (TxState.new tx status) },
   [OutMsg.query tx status])

/-- Looking up the key just inserted yields the inserted state. -/
theorem mlookup_minsert_self (m : Mempool) (k : List Nat) (v : TxState) :
    mlookup (minsert m k v) k = some v := by
  induction m with
  | nil => simp [minsert, mlookup]
  | cons hd tl ih =>
      obtain ⟨k0, v0⟩ := hd
      by_cases hk : k0 = k
      · simp [minsert, hk, mlookup]
      · simp [minsert, hk, mlookup, ih]

/-! Claim C1: streak reset on a quorum for a status differing from the
pre-handler streak belief. -/

/-- Reachable state used to refute C1 as stated: a state created by a Query
claiming `Invalid` (so `status = last_status = Invalid`, all counters zero)
after two `Valid` responses were pushed without reaching quorum. -/
def c1state : TxState :=
  { epoch := 0, tx := { nonce := 1, data := 9 }, status := Status.Invalid,
    responses := [Status.Valid, Status.Valid], is_final := false,
    cnt_valid := 0, cnt_invalid := 0, cnt := 0, last_status := Status.Invalid }

/-- C1 counterexample: at `c1state` the third `Valid` response is a quorum
confirmation for `Valid`, which differs from the streak belief held when the
response arrives (`last_status = Invalid`); yet the handler increments the
streak counter to 1 instead of resetting it to 0, because the belief flip
performed in the same invocation already rewrote `last_status` to `Valid`
before the streak comparison at line 323 runs. -/
theorem claim1_counterexample :
    c1state.is_final = false
    ∧ quorum_for c1state Status.Valid
    ∧ Status.Valid ≠ c1state.last_status
    ∧ ¬ (c1state.handle_response Status.Valid).1.cnt = 0
    ∧ (c1state.handle_response Status.Valid).1.cnt = c1state.cnt + 1 := by
  decide

set_option maxHeartbeats 4000000 in
/-- C1 (amended): in the QueryResponse handler, on a quorum confirmation
for a reported status S, the streak belief after the invocation is always S;
the streak counter is reset to 0 exactly when S differs from the pre-handler
streak belief and no belief flip occurs in the same invocation; when S
equals the pre-handler streak belief, or when a belief flip occurs (the
flip itself rewrites the streak belief to S before the streak comparison),
the streak counter is incremented instead. -/
theorem claim1_theorem (s : TxState) (S : Status)
    (hf : s.is_final = false) (hq : quorum_for s S) :
    (s.handle_response S).1.last_status = S
    ∧ ((S = s.last_status ∨ flip_occurs s S) →
        (s.handle_response S).1.cnt = s.cnt + 1)
    ∧ (S ≠ s.last_status ∧ ¬ flip_occurs s S →
        (s.handle_response S).1.cnt = 0) := by
  obtain ⟨ep, tx, st, rs, fin, cv, ci, c, ls⟩ := s
  simp only at hf
  subst hf
  unfold quorum_for at hq
  simp only [flip_occurs, TxState.incr_status, TxState.status_count]
  dsimp only at hq
  cases S <;> cases st <;> cases ls <;>
    dsimp only [TxState.handle_response, TxState.process_response, TxState.incr_status,
      TxState.status_count, TxState.advance] <;>
    split_ifs <;> dsimp only <;> simp_all

/-- State with `status = Valid`, `last_status = Invalid` and no flip on a
`Valid` quorum, exercising the reset branch of the amended C1. -/
def c1reset : TxState :=
  { epoch := 0, tx := { nonce := 1, data := 3 }, status := Status.Valid,
    responses := [Status.Valid, Status.Valid], is_final := false,
    cnt_valid := 0, cnt_invalid := 0, cnt := 0, last_status := Status.Invalid }

/-- Witness for the amended C1 at a concrete input. -/
theorem claim1_witness :
    (c1reset.handle_response Status.Valid).1.last_status = Status.Valid
    ∧ (c1reset.handle_response Status.Valid).1.cnt = 0 := by
  have h := claim1_theorem c1reset Status.Valid (by decide) (by decide)
  exact ⟨h.1, h.2.2 ⟨by decide, by decide⟩⟩

set_option maxHeartbeats 4000000 in
/-- C2: in the QueryResponse handler for a non-final state, the reported
status S is appended to the round responses, the tally n is the number of
entries of the appended list equal to the just received S, and a quorum
confirmation (observable as exactly one confidence counter increment)
occurs if and only if n reaches the threshold, which is 3 with the
reference configuration (alpha = 0.75, k = 4). -/
theorem claim2_theorem (s : TxState) (S : Status) (hf : s.is_final = false) :
    quorumThreshold = 3
    ∧ ((s.handle_response S).1.cnt_valid + (s.handle_response S).1.cnt_invalid
         = s.cnt_valid + s.cnt_invalid + 1
       ↔ ((s.responses ++ [S]).filter (fun st => st == S)).length ≥ 3)
    ∧ (quorum_for s S ↔ ((s.responses ++ [S]).filter (fun st => st == S)).length ≥ 3)
    ∧ (¬ quorum_for s S →
        (s.handle_response S).1 = { s with responses := s.responses ++ [S] }) := by
  obtain ⟨ep, tx, st, rs, fin, cv, ci, c, ls⟩ := s
  simp only at hf
  subst hf
  simp only [quorum_for]
  cases S <;> cases st <;> cases ls <;>
    dsimp only [TxState.handle_response, TxState.process_response, TxState.incr_status,
      TxState.status_count, TxState.advance] <;>
    split_ifs <;> dsimp only <;>
    simp_all [quorumThreshold, convictionThreshold, MAX_EPOCHS, SAMPLES] <;> omega

/-- State below quorum used as the C2 witness input. -/
def c2state : TxState :=
  { epoch := 0, tx := { nonce := 3, data := 2 }, status := Status.Valid,
    responses := [Status.Valid, Status.Valid], is_final := false,
    cnt_valid := 0, cnt_invalid := 0, cnt := 0, last_status := Status.Invalid }

/-- Witness for C2 at a concrete input: the third Valid response reaches the
quorum threshold 3 and exactly one confidence counter is incremented. -/
theorem claim2_witness :
    (c2state.handle_response Status.Valid).1.cnt_valid
      + (c2state.handle_response Status.Valid).1.cnt_invalid
      = c2state.cnt_valid + c2state.cnt_invalid + 1 :=
  ((claim2_theorem c2state Status.Valid (by decide)).2.1).mpr (by decide)

set_option maxHeartbeats 4000000 in
/-- C4: in the QueryResponse handler on a non-final state, the status field
changes exactly when a quorum confirmation for the reported status S occurs
and the just incremented confidence counter of S strictly exceeds the
confidence counter of the current belief; when it changes it becomes S, and
a quorum for the current belief itself never changes the status. -/
theorem claim4_theorem (s : TxState) (S : Status) (hf : s.is_final = false) :
    ((s.handle_response S).1.status ≠ s.status ↔ (quorum_for s S ∧ flip_occurs s S))
    ∧ (quorum_for s S ∧ flip_occurs s S → (s.handle_response S).1.status = S)
    ∧ (S = s.status → (s.handle_response S).1.status = s.status) := by
  obtain ⟨ep, tx, st, rs, fin, cv, ci, c, ls⟩ := s
  simp only at hf
  subst hf
  simp only [quorum_for, flip_occurs, TxState.incr_status, TxState.status_count]
  cases S <;> cases st <;> cases ls <;>
    dsimp only [TxState.handle_response, TxState.process_response, TxState.incr_status,
      TxState.status_count, TxState.advance] <;>
    split_ifs <;> dsimp only <;> simp_all <;> omega

/-- State on which a quorum for Valid flips an Invalid belief, used as the
C4 witness input. -/
def c4state : TxState :=
  { epoch := 0, tx := { nonce := 4, data := 9 }, status := Status.Invalid,
    responses := [Status.Valid, Status.Valid], is_final := false,
    cnt_valid := 0, cnt_invalid := 0, cnt := 0, last_status := Status.Invalid }

/-- Witness for C4 at a concrete input: the flip condition holds and the
status flips to Valid. -/
theorem claim4_witness :
    (c4state.handle_response Status.Valid).1.status = Status.Valid :=
  (claim4_theorem c4state Status.Valid (by decide)).2.1 ⟨by decide, by decide⟩

set_option maxHeartbeats 4000000 in
/-- C5: in every QueryResponse handler invocation on a consensus state, the
epoch stays or increases by exactly 1; when it increases the round
responses are cleared, and when it stays on a non-final state the round
responses are exactly the old ones with the reported status appended; a
final state is left completely unchanged (so `is_final` is never reset);
and `is_final` switches from false to true exactly when an epoch advance
makes the epoch equal to `MAX_EPOCHS` (4 in the reference configuration). -/
theorem claim5_theorem (s : TxState) (S : Status) :
    MAX_EPOCHS = 4
    ∧ ((s.handle_response S).1.epoch = s.epoch
        ∨ (s.handle_response S).1.epoch = s.epoch + 1)
    ∧ ((s.handle_response S).1.epoch = s.epoch + 1 →
        (s.handle_response S).1.responses = [])
    ∧ (s.is_final = false → (s.handle_response S).1.epoch = s.epoch →
        (s.handle_response S).1.responses = s.responses ++ [S])
    ∧ (s.is_final = true → (s.handle_response S).1 = s)
    ∧ ((s.handle_response S).1.is_final = true ∧ s.is_final = false
        ↔ (s.handle_response S).1.epoch = s.epoch + 1
          ∧ (s.handle_response S).1.epoch = MAX_EPOCHS) := by
  obtain ⟨ep, tx, st, rs, fin, cv, ci, c, ls⟩ := s
  cases fin <;> cases S <;> cases st <;> cases ls <;>
    dsimp only [TxState.handle_response, TxState.process_response, TxState.incr_status,
      TxState.status_count, TxState.advance] <;>
    split_ifs <;> dsimp only <;>
    simp_all [quorumThreshold, convictionThreshold, MAX_EPOCHS, SAMPLES] <;> omega

/-- Non-final state below quorum used as the C5 witness input. -/
def c5state : TxState :=
  { epoch := 2, tx := { nonce := 5, data := 1 }, status := Status.Valid,
    responses := [], is_final := false,
    cnt_valid := 2, cnt_invalid := 0, cnt := 1, last_status := Status.Valid }

/-- Witness for C5 at a concrete input: the epoch stays or advances by one,
and without an epoch advance the reported status is appended. -/
theorem claim5_witness :
    ((c5state.handle_response Status.Valid).1.epoch = c5state.epoch
      ∨ (c5state.handle_response Status.Valid).1.epoch = c5state.epoch + 1)
    ∧ (c5state.handle_response Status.Valid).1.responses
        = c5state.responses ++ [Status.Valid] := by
  refine ⟨(claim5_theorem c5state Status.Valid).2.1, ?_⟩
  exact (claim5_theorem c5state Status.Valid).2.2.2.1 (by decide) (by decide)

set_option maxHeartbeats 4000000 in
/-- C10: every newly created consensus state has its streak belief
initialized to Invalid regardless of the initial status argument; and on
any state with belief Valid and streak belief Invalid (as a state created
with status Valid still is before its first quorum), a quorum confirmation
for Valid resets the streak counter to 0 (setting the streak belief to
Valid) instead of incrementing it, while a quorum confirmation for Invalid
increments the streak counter. -/
theorem claim10_theorem (t : Transaction) (st0 : Status) (s : TxState)
    (hs : s.status = Status.Valid) (hl : s.last_status = Status.Invalid)
    (hf : s.is_final = false) :
    (TxState.new t st0).last_status = Status.Invalid
    ∧ (quorum_for s Status.Valid →
        (s.handle_response Status.Valid).1.cnt = 0
        ∧ (s.handle_response Status.Valid).1.last_status = Status.Valid)
    ∧ (quorum_for s Status.Invalid →
        (s.handle_response Status.Invalid).1.cnt = s.cnt + 1) := by
  obtain ⟨ep, tx, st, rs, fin, cv, ci, c, ls⟩ := s
  simp only at hs hl hf
  subst hs
  subst hl
  subst hf
  simp only [quorum_for, TxState.new]
  dsimp only [TxState.handle_response, TxState.process_response, TxState.incr_status,
    TxState.status_count, TxState.advance]
  split_ifs <;> dsimp only <;>
    simp_all [quorumThreshold, convictionThreshold, MAX_EPOCHS, SAMPLES] <;> omega

/-- State with belief Valid and streak belief Invalid holding two Valid
responses, used for the reset branch of the C10 witness. -/
def c10v : TxState :=
  { epoch := 0, tx := { nonce := 10, data := 2 }, status := Status.Valid,
    responses := [Status.Valid, Status.Valid], is_final := false,
    cnt_valid := 0, cnt_invalid := 0, cnt := 0, last_status := Status.Invalid }

/-- State with belief Valid and streak belief Invalid holding two Invalid
responses, used for the increment branch of the C10 witness. -/
def c10i : TxState :=
  { epoch := 0, tx := { nonce := 11, data := 2 }, status := Status.Valid,
    responses := [Status.Invalid, Status.Invalid], is_final := false,
    cnt_valid := 3, cnt_invalid := 0, cnt := 0, last_status := Status.Invalid }

/-- Witness for C10 at concrete inputs: the first Valid quorum on a
Valid-created state resets the streak counter, the first Invalid quorum
increments it. -/
theorem claim10_witness :
    (c10v.handle_response Status.Valid).1.cnt = 0
    ∧ (c10i.handle_response Status.Invalid).1.cnt = c10i.cnt + 1 := by
  refine ⟨((claim10_theorem c10v.tx Status.Valid c10v (by decide) (by decide)
    (by decide)).2.1 (by decide)).1, ?_⟩
  exact (claim10_theorem c10i.tx Status.Valid c10i (by decide) (by decide)
    (by decide)).2.2 (by decide)

/-- C3: a QueryResponse delivered for a transaction whose consensus state is
final leaves the node (hence every field of that state) unchanged, emits no
outbound message (in particular no Query), and produces no decision. -/
theorem claim3_theorem (nd : Node) (msg : QueryResponseMsg) (st : TxState)
    (hm : mlookup nd.mempool msg.hash = some st) (hf : st.is_final = true) :
    Node.handle_query_response nd msg = some (nd, [], none) := by
  unfold Node.handle_query_response
  rw [hm]
  simp [hf]

/-- Final consensus state used for the C3 witness. -/
def c3final : TxState :=
  { epoch := 4, tx := { nonce := 12, data := 3 }, status := Status.Valid,
    responses := [], is_final := true,
    cnt_valid := 4, cnt_invalid := 0, cnt := 4, last_status := Status.Valid }

/-- Node holding the final state, used for the C3 witness. -/
def c3node : Node := { id := 0, mempool := [([7], c3final)] }

/-- Witness for C3 at a concrete input: a response with the opposite status
for a final state changes nothing and emits nothing. -/
theorem claim3_witness :
    Node.handle_query_response c3node { hash := [7], status := Status.Invalid }
      = some (c3node, [], none) :=
  claim3_theorem c3node { hash := [7], status := Status.Invalid } c3final
    (by decide) (by decide)

/-- C6: on receiving a Query for an unseen transaction, the node creates a
state with the claimed status and epoch 0, stores it, emits an outbound
Query for the transaction and a QueryResponse to the origin carrying its
(here freshly adopted) status; for an already known transaction the node is
left entirely unchanged and only a QueryResponse carrying the stored
current status is sent to the origin. -/
theorem claim6_theorem (nd : Node) (origin : Nat) (msg : QueryMessage) :
    (mlookup nd.mempool msg.tx.hash = none →
       Node.handle_query nd origin msg =
         ({ nd with mempool := (minsert nd.mempool msg.tx.hash
             (TxState.new msg.tx msg.status)) },
          [OutMsg.query msg.tx msg.status,
           OutMsg.response origin msg.tx.hash msg.status])
       ∧ (TxState.new msg.tx msg.status).status = msg.status
       ∧ (TxState.new msg.tx msg.status).epoch = 0
       ∧ mlookup (Node.handle_query nd origin msg).1.mempool msg.tx.hash
           = some (TxState.new msg.tx msg.status))
    ∧ (∀ st, mlookup nd.mempool msg.tx.hash = some st →
        Node.handle_query nd origin msg
          = (nd, [OutMsg.response origin st.tx.hash st.status])) := by
  constructor
  · intro hm
    simp [Node.handle_query, hm, TxState.new, mlookup_minsert_self]
  · intro st hm
    simp [Node.handle_query, hm]

/-- Empty node used for the C6 witness. -/
def c6node : Node := { id := 0, mempool := [] }

/-- Query message used for the C6 witness. -/
def c6msg : QueryMessage := { tx := { nonce := 6, data := 3 }, status := Status.Valid }

/-- Witness for C6 at a concrete input: an unseen transaction is adopted,
propagated and answered. -/
theorem claim6_witness :
    Node.handle_query c6node 5 c6msg =
      ({ c6node with mempool := (minsert c6node.mempool c6msg.tx.hash
          (TxState.new c6msg.tx c6msg.status)) },
       [OutMsg.query c6msg.tx c6msg.status,
        OutMsg.response 5 c6msg.tx.hash c6msg.status]) :=
  ((claim6_theorem c6node 5 c6msg).1 rfl).1

/-- C7: the transaction identifier is the SHA-256 digest of the 8-byte
little-endian encoding of the nonce alone, so two transactions with equal
nonce have equal identifiers even when their payloads differ. -/
theorem claim7_theorem (t1 t2 : Transaction) (h : t1.nonce = t2.nonce) :
    t1.serialize = u64LEBytes t1.nonce
    ∧ Transaction.hash t1 = sha256 t1.serialize
    ∧ Transaction.hash t1 = Transaction.hash t2 := by
  refine ⟨rfl, rfl, ?_⟩
  simp [Transaction.hash, Transaction.serialize, h]

/-- Witness for C7 at concrete inputs: equal nonce, different payloads,
equal identifiers. -/
theorem claim7_witness :
    Transaction.hash { nonce := 7, data := 2 } = Transaction.hash { nonce := 7, data := 9 } :=
  (claim7_theorem { nonce := 7, data := 2 } { nonce := 7, data := 9 } rfl).2.2

/-- C8: a QueryResponse whose transaction identifier is absent from the
mempool makes the handler abort (the `unwrap` panic, modelled as `none`):
no updated node is produced, so the mempool is not mutated. -/
theorem claim8_theorem (nd : Node) (msg : QueryResponseMsg)
    (hm : mlookup nd.mempool msg.hash = none) :
    Node.handle_query_response nd msg = none := by
  unfold Node.handle_query_response
  rw [hm]

/-- Witness for C8 at a concrete input. -/
theorem claim8_witness :
    Node.handle_query_response { id := 0, mempool := [] }
      { hash := [1], status := Status.Valid } = none :=
  claim8_theorem { id := 0, mempool := [] } { hash := [1], status := Status.Valid } rfl

/-- C9: local verification is deterministic, returning Valid exactly for a
payload strictly below 7 and Invalid otherwise; on direct injection the
node stores a fresh state whose belief is exactly the verification result
and emits a Query carrying that belief. -/
theorem claim9_theorem (nd : Node) (t : Transaction) :
    (nd.verify_transaction t = Status.Valid ↔ t.data < 7)
    ∧ (nd.verify_transaction t = Status.Invalid ↔ 7 ≤ t.data)
    ∧ (TxState.new t (nd.verify_transaction t)).status = nd.verify_transaction t
    ∧ Node.handle_transaction nd t =
        ({ nd with mempool := (minsert nd.mempool t.hash
            (TxState.new t (nd.verify_transaction t))) },
         [OutMsg.query t (nd.verify_transaction t)])
    ∧ mlookup (Node.handle_transaction nd t).1.mempool t.hash
        = some (TxState.new t (nd.verify_transaction t)) := by
  by_cases h : t.data < 7 <;>
    simp [Node.verify_transaction, Node.handle_transaction, TxState.new,
      mlookup_minsert_self, h] <;>
    omega
